import Mathlib

/-!
Shallow embedding of the UNS apartment-management core (spreadsheet import,
referential-integrity checking, canonical store CRUD, rent allocation and
dashboard metrics) together with theorems checking the specification's
claims against it.

Sources embedded:
- `src/utils/validators.ts` (zod row schemas, `validateDataIntegrity`,
  `isPropertyActive`)
- `src/hooks/useExcelImport.ts` (`processFile`, `processEmployeeImport`,
  `processRentImport`)
- `src/hooks/useDatabase.ts` (`deleteProperty`, `addTenant`, `addEmployees`,
  `getPropertiesByStatus`)
- `src/components/dashboard/Dashboard.tsx` (metrics / alert derivation)
- `src/components/properties/RentManager.tsx` (rent distribution interface)

JavaScript runtime behaviour that the code leans on (falsiness of `''` and
`0`, `String(...)` conversion, `parseInt` prefix parsing, `Date` parsing) is
modelled explicitly; `Date` parsing is an environment input, so it is a
parameter `parse : String → Option Int` (milliseconds since epoch, `none`
standing for an Invalid Date / NaN timestamp), and "now" is a parameter.
-/

namespace UNS

/-! ## JS cell values and coercions -/

/-- A spreadsheet cell value as produced by `XLSX.utils.sheet_to_json`:
either a string or a number (integer-valued in all relevant columns). -/
inductive Cell where
  | str : String → Cell
  | num : Int → Cell
deriving Repr, DecidableEq

/-- A raw row: association list from column label to cell value.
`row[k]` on an absent key is JS `undefined`, modelled by `Option`. -/
abbrev Row := List (String × Cell)

def getCell (r : Row) (k : String) : Option Cell := r.lookup k

/-- JS truthiness of `row[k]`: `undefined`, `''` and `0` are falsy. -/
def cellTruthy : Option Cell → Bool
  | none => false
  | some (.str s) => !(s == "")
  | some (.num n) => !(n == 0)

/-- JS `String(x)` for a cell or `undefined`. -/
def jsString : Option Cell → String
  | none => "undefined"
  | some (.str s) => s
  | some (.num n) => toString n

/-- JS `a || b` on cell values: first operand if truthy, else second. -/
def jsOrCell (a b : Option Cell) : Option Cell :=
  if cellTruthy a then a else b

def isDigitChar (c : Char) : Bool := '0' ≤ c && c ≤ '9'

def digitsToNat (cs : List Char) : Nat :=
  cs.foldl (fun a c => a * 10 + (c.toNat - 48)) 0

def isSpaceChar (c : Char) : Bool :=
  c == ' ' || c == '\t' || c == '\n' || c == '\r'

/-- JS `s.trim()`: strip leading and trailing whitespace. -/
def jsTrim (s : String) : String :=
  ⟨((s.data.dropWhile isSpaceChar).reverse.dropWhile isSpaceChar).reverse⟩

/-- JS `parseInt(s)` (radix 10): skip leading whitespace, optional sign,
longest digit prefix; `none` when no digit is found (NaN). -/
def jsParseInt (s : String) : Option Int :=
  match s.data.dropWhile isSpaceChar with
  | '-' :: rest =>
      let ds := rest.takeWhile isDigitChar
      if ds.isEmpty then none else some (-(digitsToNat ds : Int))
  | '+' :: rest =>
      let ds := rest.takeWhile isDigitChar
      if ds.isEmpty then none else some ((digitsToNat ds : Int))
  | cs =>
      let ds := cs.takeWhile isDigitChar
      if ds.isEmpty then none else some ((digitsToNat ds : Int))

/-- `parseInt(String(row[k] || 0)) || 0` — the monetary-cell coercion used
for 家賃 / USN家賃 / 駐車場代 / 駐車場 in `processRentImport`. -/
def coerceMoney (c : Option Cell) : Int :=
  (jsParseInt (jsString (jsOrCell c (some (Cell.num 0))))).getD 0

/-- `parseInt(String(row['入居人数'] || 2)) || 2` — the capacity coercion
(note that both a failed parse and a parsed `0` fall back to `2`). -/
def coerceCapacity (c : Option Cell) : Int :=
  match jsParseInt (jsString (jsOrCell c (some (Cell.num 2)))) with
  | none => 2
  | some n => if n == 0 then 2 else n

/-- `row[k] || ''` stringified — used for address / contract date fields. -/
def coerceStr (c : Option Cell) : String :=
  if cellTruthy c then jsString c else ""

/-! ## Entities (src/types/database.ts) -/

structure Property where
  id : Int
  name : String
  address : String
  address_auto : String
  type : String
  capacity : Int
  rent_cost : Int
  rent_price_uns : Int
  parking_cost : Int
  contract_start : String
  contract_end : Option String
deriving Repr, DecidableEq

structure Tenant where
  id : Int
  employee_id : String
  name : String
  name_kana : String
  property_id : Int
  rent_contribution : Int
  parking_fee : Int
  entry_date : String
  status : String
deriving Repr, DecidableEq

structure Employee where
  id : String
  name : String
  name_kana : String
  company : String
  full_data : Row
deriving Repr, DecidableEq

structure Config where
  companyName : String
  closingDay : Int
deriving Repr, DecidableEq

structure Database where
  properties : List Property
  tenants : List Tenant
  employees : List Employee
  config : Config
  version : String
  last_sync : String
deriving Repr, DecidableEq

/-! ## Referential Integrity Checker (validators.ts, validateDataIntegrity) -/

structure IntegrityError where
  type : String
  message : String
deriving Repr, DecidableEq

structure IntegrityResult where
  valid : Bool
  errors : List IntegrityError
deriving Repr, DecidableEq

/-- FK rule applied to one tenant: error when its `property_id` resolves to
no property in the set. -/
def fkCheck (ps : List Property) (t : Tenant) : Option IntegrityError :=
  if ps.any (fun p => p.id == t.property_id) then none
  else some ⟨"FK_ERROR",
    s!"Inquilino \"{t.name}\" asignado a propiedad inexistente (ID: {t.property_id})"⟩

/-- Count of tenants with `status = 'active'` assigned to property `p`. -/
def activeTenantCount (ts : List Tenant) (p : Property) : Nat :=
  (ts.filter (fun t => t.property_id == p.id && t.status == "active")).length

/-- Capacity rule applied to one property. -/
def capCheck (ts : List Tenant) (p : Property) : Option IntegrityError :=
  let tenantCount := activeTenantCount ts p
  if (p.capacity : Int) < (tenantCount : Int) then
    some ⟨"CAPACITY_ERROR",
      s!"Propiedad \"{p.name}\" excede capacidad ({tenantCount}/{p.capacity})"⟩
  else none

/-- `validateDataIntegrity`: FK errors over all tenants, then capacity errors
over all properties; `valid` iff the combined error list is empty. -/
def validateDataIntegrity (ps : List Property) (ts : List Tenant) :
    IntegrityResult :=
  let errors := ts.filterMap (fkCheck ps) ++ ps.filterMap (capCheck ts)
  ⟨errors.length == 0, errors⟩

/-! ## Sheet Classifier (useExcelImport.ts, processFile) -/

/-- Substring containment on character lists (JS `String.includes`). -/
def hasInfix (pat : List Char) : List Char → Bool
  | [] => pat.isEmpty
  | c :: rest => pat.isPrefixOf (c :: rest) || hasInfix pat rest

/-- `s.includes(pat)`. -/
def containsSub (s pat : String) : Bool := hasInfix pat.data s.data

def isEmpSheet (n : String) : Bool :=
  containsSub n "Genzai" || containsSub n "Ukeoi" || containsSub n "社員"

def isPropSheet (n : String) : Bool :=
  containsSub n "会社寮情報" || containsSub n "物件"

def isTenantSheet (n : String) : Bool :=
  containsSub n "入居者一覧" || containsSub n "入居"

/-- A workbook as handed over by the XLSX collaborator: ordered sheet names
plus the tabulated rows of each sheet. -/
structure Workbook where
  sheetNames : List String
  sheets : String → List Row

/-! ## Import Pipeline (useExcelImport.ts) -/

structure RowError where
  row : Nat
  field : String
  message : String
deriving Repr, DecidableEq

structure ImportData where
  properties : List Property
  tenants : List Tenant
  employees : List Employee
deriving Repr, DecidableEq

inductive ImportType where
  | employees
  | rent_management
deriving Repr, DecidableEq

structure ImportResult where
  success : Bool
  type : Option ImportType
  data : Option ImportData
  errors : List RowError
  summary : String
deriving Repr, DecidableEq

/-- zod: the cell is present and is a string (`z.string()`). -/
def isStrCell : Option Cell → Bool
  | some (.str _) => true
  | _ => false

/-- zod: absent, or present as a string (`z.string().optional()`). -/
def optStrCell : Option Cell → Bool
  | none => true
  | some (.str _) => true
  | some (.num _) => false

/-- `ExcelPropertyRowSchema.safeParse`: ｱﾊﾟｰﾄ required string; 住所,
契約開始日, 契約終了 optional strings; the rest `z.any()`. -/
def validPropertyRow (r : Row) : Bool :=
  isStrCell (getCell r "ｱﾊﾟｰﾄ") && optStrCell (getCell r "住所")
    && optStrCell (getCell r "契約開始日") && optStrCell (getCell r "契約終了")

/-- `ExcelTenantRowSchema.safeParse`: ｱﾊﾟｰﾄ and カナ required strings;
入居 optional string; 家賃, 駐車場 `z.any()`. -/
def validTenantRow (r : Row) : Bool :=
  isStrCell (getCell r "ｱﾊﾟｰﾄ") && isStrCell (getCell r "カナ")
    && optStrCell (getCell r "入居")

/-- `ExcelEmployeeRowSchema.safeParse`: 社員No is `z.any()` (never fails);
氏名 and カナ required strings; 派遣先 optional string. -/
def validEmployeeRow (r : Row) : Bool :=
  isStrCell (getCell r "氏名") && isStrCell (getCell r "カナ")
    && optStrCell (getCell r "派遣先")

/-- One property row of the rent-management import (`now` models the
`Date.now()` base used for synthetic ids). -/
def processPropRow (now : Int) (index : Nat) (r : Row) :
    Except RowError Property :=
  if !(validPropertyRow r) then
    .error ⟨index + 1, "propiedad", "Campos requeridos faltantes"⟩
  else
    let name := jsTrim (jsString (jsOrCell (getCell r "ｱﾊﾟｰﾄ") (getCell r "物件名")))
    if name == "" then
      .error ⟨index + 1, "nombre", "Nombre de propiedad requerido"⟩
    else
      .ok {
        id := now + index
        name := name
        address := jsTrim (coerceStr (getCell r "住所"))
        address_auto := jsTrim (coerceStr (getCell r "住所"))
        type := "1K"
        capacity := coerceCapacity (getCell r "入居人数")
        rent_cost := coerceMoney (getCell r "家賃")
        rent_price_uns := coerceMoney (getCell r "USN家賃")
        parking_cost := coerceMoney (getCell r "駐車場代")
        contract_start := coerceStr (getCell r "契約開始日")
        contract_end := some (coerceStr (getCell r "契約終了")) }

/-- `String(row['ｱﾊﾟｰﾄ']).trim()` of a tenant row. -/
def aptOf (r : Row) : String := jsTrim (jsString (getCell r "ｱﾊﾟｰﾄ"))

/-- `String(row['カナ']).trim()` of a tenant row. -/
def kanaOf (r : Row) : String := jsTrim (jsString (getCell r "カナ"))

/-- One tenant row of the rent-management import; matched by exact name
equality against the candidate properties of the same run (`today` models
`new Date().toISOString().split('T')[0]`). -/
def processTenantRow (props : List Property) (now : Int) (today : String)
    (index : Nat) (r : Row) : Except RowError Tenant :=
  if !(validTenantRow r) then
    .error ⟨index + 1, "inquilino", "Campos requeridos faltantes"⟩
  else
    let apt := aptOf r
    let kana := kanaOf r
    if apt == "" || kana == "" then
      .error ⟨index + 1, "apt/kana", "Apartamento y Kana requeridos"⟩
    else
      match props.find? (fun p => p.name == apt) with
      | none => .error ⟨index + 1, "apartamento", s!"Propiedad \"{apt}\" no encontrada"⟩
      | some prop =>
        .ok {
          id := now + index
          employee_id := s!"IMP-{index}"
          name := kana
          name_kana := kana
          property_id := prop.id
          rent_contribution := coerceMoney (getCell r "家賃")
          parking_fee := coerceMoney (getCell r "駐車場")
          entry_date :=
            if cellTruthy (getCell r "入居") then jsString (getCell r "入居") else today
          status := "active" }

/-- One employee row of the employee import. -/
def processEmployeeRow (index : Nat) (r : Row) : Except RowError Employee :=
  if !(validEmployeeRow r) then
    .error ⟨index + 1, "múltiples", "Datos incompletos"⟩
  else
    let id := jsTrim (jsString (jsOrCell (getCell r "社員No") (getCell r "ID")))
    let name := jsTrim (jsString (jsOrCell (getCell r "氏名") (getCell r "Name")))
    if id == "" || name == "" then
      .error ⟨index + 1, "ID/Nombre", "ID y Nombre requeridos"⟩
    else
      .ok {
        id := id
        name := name
        name_kana := jsTrim (coerceStr (getCell r "カナ"))
        company := jsTrim (coerceStr (getCell r "派遣先"))
        full_data := r }

/-- `rows.forEach(...)` with an error array and a candidate array: each row
contributes exactly one error or exactly one candidate, in row order. -/
def collectRows {α : Type} (f : Nat → Row → Except RowError α) :
    Nat → List Row → List RowError × List α
  | _, [] => ([], [])
  | i, r :: rest =>
    let tail := collectRows f (i + 1) rest
    match f i r with
    | .error e => (e :: tail.1, tail.2)
    | .ok a => (tail.1, a :: tail.2)

/-- `processEmployeeImport`. -/
def processEmployeeImport (wb : Workbook) : ImportResult :=
  match wb.sheetNames.find? isEmpSheet with
  | none =>
    { success := false, type := none, data := none, errors := []
      summary := "Hoja de empleados no encontrada" }
  | some sheet =>
    let res := collectRows processEmployeeRow 0 (wb.sheets sheet)
    let total := (wb.sheets sheet).length
    { success := res.1.length == 0
      type := some .employees
      data := some ⟨[], [], res.2⟩
      errors := res.1
      summary := "Importación de Empleados:\n" ++
        s!"- Total filas procesadas: {total}\n" ++
        s!"- Empleados válidos: {res.2.length}\n" ++
        s!"- Errores encontrados: {res.1.length}" }

/-- `processRentImport`: optional property sheet, then optional tenant sheet
matched against the candidates of this run, then the integrity check over
the candidate-only set. -/
def processRentImport (wb : Workbook) (now : Int) (today : String) :
    ImportResult :=
  let propRes :=
    match wb.sheetNames.find? isPropSheet with
    | none => ([], [])
    | some sheet => collectRows (processPropRow now) 0 (wb.sheets sheet)
  let props := propRes.2
  let tenantRes :=
    match wb.sheetNames.find? isTenantSheet with
    | none => ([], [])
    | some sheet => collectRows (processTenantRow props now today) 0 (wb.sheets sheet)
  let tens := tenantRes.2
  let errors := propRes.1 ++ tenantRes.1
  let integrityCheck := validateDataIntegrity props tens
  { success := errors.length == 0 && integrityCheck.valid
    type := some .rent_management
    data := some ⟨props, tens, []⟩
    errors := errors ++
      (integrityCheck.errors.enum.map (fun ie => ⟨ie.1, ie.2.type, ie.2.message⟩))
    summary := "Importación de Gestión de Rentas:\n" ++
      s!"- Propiedades: {props.length}\n" ++
      s!"- Inquilinos: {tens.length}\n" ++
      s!"- Errores de validación: {errors.length}\n" ++
      s!"- Errores de integridad: {integrityCheck.errors.length}" }

/-- `processFile` classification: employee markers first, then
property/tenant markers, else a failed result with zero candidates. -/
def processFile (wb : Workbook) (now : Int) (today : String) : ImportResult :=
  if wb.sheetNames.any isEmpSheet then
    processEmployeeImport wb
  else if wb.sheetNames.any isPropSheet || wb.sheetNames.any isTenantSheet then
    processRentImport wb now today
  else
    { success := false, type := none, data := none, errors := []
      summary := "No se detectó formato válido de importación" }

/-! ## Store CRUD (useDatabase.ts) -/

/-- Result of a CRUD mutator: `{success: true}` or
`{success: false, error}` (field-level validation error lists are collapsed
to `error := none`). -/
structure MutResult where
  success : Bool
  error : Option String
deriving Repr, DecidableEq

/-- `TenantSchema.parse` (zod): string lengths, positive FK, non-negative
amounts, `entry_date` a datetime string. The datetime format check is an
environment input `isDatetime`. -/
def validateTenantB (isDatetime : String → Bool) (t : Tenant) : Bool :=
  1 ≤ t.employee_id.length && t.employee_id.length ≤ 50
    && 1 ≤ t.name.length && 1 ≤ t.name_kana.length
    && 0 < t.property_id
    && 0 ≤ t.rent_contribution && 0 ≤ t.parking_fee
    && isDatetime t.entry_date

/-- `deleteProperty`: drop the property and cascade-drop its tenants;
always `{success: true}`. -/
def deleteProperty (db : Database) (id : Int) : Database × MutResult :=
  ({ db with
      properties := db.properties.filter (fun p => p.id != id)
      tenants := db.tenants.filter (fun t => t.property_id != id) },
   ⟨true, none⟩)

/-- `addTenant`: property-existence guard, active-duplicate guard on
`employee_id`, then schema validation; `now` models `Date.now()` used as the
fresh id. -/
def addTenant (isDatetime : String → Bool) (db : Database) (now : Int)
    (t : Tenant) : Database × MutResult :=
  if !(db.properties.any (fun p => p.id == t.property_id)) then
    (db, ⟨false, some "Propiedad no existe"⟩)
  else if db.tenants.any
      (fun u => u.employee_id == t.employee_id && u.status == "active") then
    (db, ⟨false, some "ID empleado ya asignado"⟩)
  else if !(validateTenantB isDatetime { t with id := now }) then
    (db, ⟨false, none⟩)
  else
    ({ db with tenants := db.tenants ++ [{ t with id := now }] }, ⟨true, none⟩)

/-- `addEmployees`: append exactly the candidates whose id is not already in
the store (checked against the previous store only). -/
def addEmployees (db : Database) (emps : List Employee) : Database :=
  { db with
      employees := db.employees ++
        emps.filter (fun emp => !(db.employees.any (fun e => e.id == emp.id))) }

/-! ## Activeness of a property

`new Date(s)` is modelled by an environment parameter
`parse : String → Option Int` (`none` = Invalid Date) and `now : Int`
(`new Date()` at the moment of the call). A JS comparison
`invalidDate > now` is false because NaN comparisons are false. -/

/-- The Dashboard's inline `activeProps` predicate
(`!p.contract_end || new Date(p.contract_end) > new Date()`). -/
def dashPropActive (parse : String → Option Int) (now : Int) (p : Property) :
    Bool :=
  match p.contract_end with
  | none => true
  | some s =>
    if s == "" then true
    else
      match parse s with
      | none => false
      | some d => now < d

/-- `isPropertyActive` (utils): explicit `isNaN` fail-open branch. -/
def isPropertyActive (parse : String → Option Int) (now : Int) (p : Property) :
    Bool :=
  match p.contract_end with
  | none => true
  | some s =>
    if s == "" then true
    else
      match parse s with
      | none => true
      | some d => now < d

/-- `getPropertiesByStatus` (useDatabase.ts). -/
def getPropertiesByStatus (parse : String → Option Int) (now : Int)
    (db : Database) (active : Bool) : List Property :=
  db.properties.filter (fun p =>
    match p.contract_end with
    | none => active
    | some s =>
      if s == "" then active
      else
        let isActive := match parse s with
          | none => false
          | some d => decide (now < d)
        if active then isActive else !isActive)

/-! ## Metrics Aggregator (Dashboard.tsx) -/

structure AlertItem where
  type : String
  msg : String
  severity : Option String
  timestamp : Option String
deriving Repr, DecidableEq

def activeProps (parse : String → Option Int) (now : Int) (db : Database) :
    List Property :=
  db.properties.filter (dashPropActive parse now)

def totalProperties (parse : String → Option Int) (now : Int) (db : Database) :
    Nat :=
  (activeProps parse now db).length

/-- Contract-expiry alert for one active property:
`Math.ceil(|endDate - today| / 86400000) ≤ 60` emits a warning. An
unparseable date yields NaN throughout, every NaN comparison is false, so no
alert is emitted. -/
def contractAlert (parse : String → Option Int) (now : Int) (nowIso : String)
    (p : Property) : Option AlertItem :=
  match p.contract_end with
  | none => none
  | some s =>
    if s == "" then none
    else
      match parse s with
      | none => none
      | some d =>
        let diffDays := ((d - now).natAbs + 86400000 - 1) / 86400000
        if diffDays ≤ 60 then
          some ⟨"warning", s!"📋 Contrato de {p.name} vence en {diffDays} días",
            some (if diffDays ≤ 30 then "high" else "medium"), some nowIso⟩
        else none

/-- The Dashboard's `zeroRentTenants` list. -/
def zeroRentTenants (db : Database) : List Tenant :=
  db.tenants.filter (fun t => t.status == "active" && t.rent_contribution == 0)

/-- The Dashboard's alert list: per-property contract warnings over the
active properties, then at most one aggregate danger alert for active
tenants without a rent contribution. -/
def dashboardAlerts (parse : String → Option Int) (now : Int) (nowIso : String)
    (db : Database) : List AlertItem :=
  let contractAlerts :=
    (activeProps parse now db).filterMap (contractAlert parse now nowIso)
  let zr := zeroRentTenants db
  contractAlerts ++
    (if 0 < zr.length then
      [⟨"danger", s!"⚠️ {zr.length} inquilino(s) sin renta configurada",
        some "high", some nowIso⟩]
    else [])

/-! ## Rent Allocation Engine -/

/-- Modelled from the spec: the implementation of the rent-allocation
operation behind `RentManagerProps.onDistributeEvenly` is not part of the
sources under src/ (only its interface is); per the spec it computes
`base = floor(rent_price_uns / N)` and `remainder = rent_price_uns mod N`
over the property's `N > 0` active tenants in stable store order, assigning
`base + remainder` to the first tenant and `base` to every other. -/
def distributeEvenly (rent : Nat) (n : Nat) : List Nat :=
  if n = 0 then []
  else (rent / n + rent % n) :: List.replicate (n - 1) (rent / n)

/-! ## Derived views and helpers used by the statements -/

/-- Number of employees with a given id in a list. -/
def employeeIdCount (es : List Employee) (i : String) : Nat :=
  (es.filter (fun e => e.id == i)).length

/-- The candidate properties produced by one rent-management run from the
rows of the property sheet. -/
def candidateProps (now : Int) (propRows : List Row) : List Property :=
  (collectRows (processPropRow now) 0 propRows).2

/-- A rent-management workbook with the canonical sheet names 物件 / 入居
and the given rows. -/
def mkRentWb (propRows tenantRows : List Row) : Workbook :=
  { sheetNames := ["物件", "入居"]
    sheets := fun n =>
      if n == "物件" then propRows else if n == "入居" then tenantRows else [] }

/-- `processRentImport` specialised to `mkRentWb`, with the sheet lookup
already resolved (definitionally equal to the general function on such a
workbook). -/
def rentImportOn (propRows tenantRows : List Row) (now : Int) (today : String) :
    ImportResult :=
  let propRes := collectRows (processPropRow now) 0 propRows
  let props := propRes.2
  let tenantRes := collectRows (processTenantRow props now today) 0 tenantRows
  let tens := tenantRes.2
  let errors := propRes.1 ++ tenantRes.1
  let integrityCheck := validateDataIntegrity props tens
  { success := errors.length == 0 && integrityCheck.valid
    type := some .rent_management
    data := some ⟨props, tens, []⟩
    errors := errors ++
      (integrityCheck.errors.enum.map (fun ie => ⟨ie.1, ie.2.type, ie.2.message⟩))
    summary := "Importación de Gestión de Rentas:\n" ++
      s!"- Propiedades: {props.length}\n" ++
      s!"- Inquilinos: {tens.length}\n" ++
      s!"- Errores de validación: {errors.length}\n" ++
      s!"- Errores de integridad: {integrityCheck.errors.length}" }

/-! ## Concrete demonstration data -/

/-- A date-parse environment in which no string parses (every
`new Date(s)` of these strings is an Invalid Date). -/
def noParse : String → Option Int := fun _ => none

/-- A datetime-format environment accepting every string. -/
def dtAlways : String → Bool := fun _ => true

def defaultConfig : Config := ⟨"UNS-KIKAKU", 0⟩

def dbEmpty : Database := ⟨[], [], [], defaultConfig, "7.0", ""⟩

/-- A property whose `contract_end` does not parse as a date. -/
def badDateProp : Property :=
  ⟨1, "Sakura", "Tokio", "Tokio", "1K", 2, 50000, 80000, 0, "", some "not-a-date"⟩

def dbBadDate : Database := ⟨[badDateProp], [], [], defaultConfig, "7.0", ""⟩

/-- A tenant row naming an apartment no candidate property has. -/
def unknownAptRow : Row := [("ｱﾊﾟｰﾄ", Cell.str "Unknown"), ("カナ", Cell.str "タナカ")]

/-- A property row whose 家賃 cell is a negative numeral. -/
def negRentRow : Row := [("ｱﾊﾟｰﾄ", Cell.str "Casa Verde"), ("家賃", Cell.str "-5")]

/-- A property row whose 家賃 cell is non-numeric. -/
def badRentRow : Row := [("ｱﾊﾟｰﾄ", Cell.str "Casa"), ("家賃", Cell.str "abc")]

/-- The candidate `processPropRow 0 0 badRentRow` produces. -/
def badRentProp : Property :=
  ⟨0, "Casa", "", "", "1K", 2, 0, 0, 0, "", some ""⟩

def pA : Property := ⟨1, "A", "Osaka", "Osaka", "1K", 1, 0, 0, 0, "", none⟩

def tA1 : Tenant := ⟨11, "E1", "T", "T", 1, 10000, 0, "2026-01-01", "active"⟩
def tA2 : Tenant := ⟨12, "E2", "U", "U", 1, 10000, 0, "2026-01-01", "active"⟩
def tA9 : Tenant := ⟨13, "E3", "V", "V", 9, 10000, 0, "2026-01-01", "active"⟩

def psC3 : List Property := [pA]
def tsC3 : List Tenant := [tA1, tA2, tA9]

def empA : Employee := ⟨"a", "Alice", "アリス", "ACME", []⟩
def empA2 : Employee := ⟨"a", "Alicia", "アリシア", "ACME", []⟩
def empB : Employee := ⟨"b", "Bob", "ボブ", "ACME", []⟩

/-- A candidate list carrying an internal duplicate employee id. -/
def dupEmps : List Employee := [empA, empA2]

def dbOneEmp : Database := ⟨[], [], [empA], defaultConfig, "7.0", ""⟩

def wbEmp : Workbook := ⟨["Genzai2025"], fun _ => []⟩
def wbRent : Workbook := ⟨["物件"], fun _ => []⟩
def wbNone : Workbook := ⟨["Sheet1"], fun _ => []⟩

def pB : Property := ⟨2, "Momiji", "Kioto", "Kioto", "1K", 2, 0, 0, 0, "", none⟩
def tB : Tenant := ⟨21, "E8", "W", "W", 2, 5000, 0, "2026-01-01", "active"⟩

def db8 : Database := ⟨[pA, pB], [tA1, tB], [empA], defaultConfig, "7.0", ""⟩

def db10 : Database := ⟨[pA], [], [], defaultConfig, "7.0", ""⟩
def t10 : Tenant := ⟨0, "E9", "Taro", "タロウ", 1, 30000, 0, "2026-01-01", "active"⟩

def db9 : Database := ⟨[pA], [⟨31, "E5", "X", "X", 1, 0, 0, "2026-01-01", "active"⟩],
  [], defaultConfig, "7.0", ""⟩

/-! ## General lemmas -/

theorem get?_replicate_of_lt {α : Type} (a : α) :
    ∀ (m j : Nat), j < m → (List.replicate m a).get? j = some a
  | 0, j, h => absurd h (Nat.not_lt_zero j)
  | _ + 1, 0, _ => rfl
  | m + 1, j + 1, h => get?_replicate_of_lt a m j (Nat.lt_of_succ_lt_succ h)

theorem contractAlert_isWarning {parse : String → Option Int} {now : Int}
    {nowIso : String} {p : Property} {a : AlertItem}
    (h : contractAlert parse now nowIso p = some a) : a.type = "warning" := by
  unfold contractAlert at h
  split at h
  · exact absurd h (by simp)
  · split at h
    · exact absurd h (by simp)
    · split at h
      · exact absurd h (by simp)
      · dsimp only [] at h
        split at h
        · injection h with h2
          rw [← h2]
        · exact absurd h (by simp)

theorem fkCheck_type {ps : List Property} {t : Tenant} {e : IntegrityError}
    (h : fkCheck ps t = some e) : e.type = "FK_ERROR" := by
  unfold fkCheck at h
  split at h
  · exact absurd h (by simp)
  · injection h with h2
    rw [← h2]

theorem capCheck_type {ts : List Tenant} {p : Property} {e : IntegrityError}
    (h : capCheck ts p = some e) : e.type = "CAPACITY_ERROR" := by
  unfold capCheck at h
  dsimp only [] at h
  split at h
  · injection h with h2
    rw [← h2]
  · exact absurd h (by simp)

theorem integrity_error_types {ps : List Property} {ts : List Tenant}
    {e : IntegrityError} (h : e ∈ (validateDataIntegrity ps ts).errors) :
    e.type = "FK_ERROR" ∨ e.type = "CAPACITY_ERROR" := by
  unfold validateDataIntegrity at h
  rcases List.mem_append.mp h with h1 | h1
  · obtain ⟨t, _, hf⟩ := List.mem_filterMap.mp h1
    exact Or.inl (fkCheck_type hf)
  · obtain ⟨p, _, hf⟩ := List.mem_filterMap.mp h1
    exact Or.inr (capCheck_type hf)

theorem length_filterMap_eq {α β : Type} (f : α → Option β) (l : List α) :
    (l.filterMap f).length = (l.filter (fun a => (f a).isSome)).length := by
  induction l with
  | nil => rfl
  | cons a t ih =>
    cases h : f a <;>
      simp [List.filterMap_cons, h, List.filter_cons, ih]

theorem mem_enumFrom_snd {α : Type} {x : Nat × α} :
    ∀ {j : Nat} {l : List α}, x ∈ List.enumFrom j l → x.2 ∈ l := by
  intro j l
  induction l generalizing j with
  | nil => intro h; exact absurd h (by simp)
  | cons a t ih =>
    intro h
    rcases List.mem_cons.mp h with h1 | h1
    · rw [h1]; exact List.mem_cons_self a t
    · exact List.mem_cons_of_mem a (ih h1)

theorem collectRows_prop_error_fields {now : Int} {e : RowError} :
    ∀ {i : Nat} {rows : List Row},
      e ∈ (collectRows (processPropRow now) i rows).1 →
      e.field = "propiedad" ∨ e.field = "nombre" := by
  intro i rows
  induction rows generalizing i with
  | nil => intro h; exact absurd h (by simp [collectRows])
  | cons r rest ih =>
    intro h
    rw [collectRows] at h
    rcases hf : processPropRow now i r with e₀ | a₀
    · rw [hf] at h
      rcases List.mem_cons.mp h with h1 | h1
      · subst h1
        unfold processPropRow at hf
        split at hf
        · injection hf with h2; rw [← h2]; exact Or.inl rfl
        · dsimp only [] at hf
          split at hf
          · injection hf with h2; rw [← h2]; exact Or.inr rfl
          · exact absurd hf (by simp)
      · exact ih h1
    · rw [hf] at h
      exact ih h

/-! ## Claim theorems -/

/-- C1: the claim says the Dashboard's active-property set is fail-open
(unparseable `contract_end` counted active, matching `isPropertyActive`).
The code is not: on a property whose `contract_end` fails to parse, the
helper `isPropertyActive` answers `true` but the Dashboard's inline
`activeProps` filter (and `getPropertiesByStatus`) answer `false`, because
`new Date(bad) > new Date()` is a NaN comparison; so the property is
dropped from `totalProperties` (and the other aggregates) instead of being
counted. This evaluates the code at the failing input. -/
theorem dashboard_unparseable_contract_end_counted_inactive :
    isPropertyActive noParse 0 badDateProp = true
    ∧ dashPropActive noParse 0 badDateProp = false
    ∧ totalProperties noParse 0 dbBadDate = 0
    ∧ getPropertiesByStatus noParse 0 dbBadDate true = [] :=
  ⟨rfl, rfl, rfl, rfl⟩

/-- C4: `distributeEvenly` over `rent_price_uns = R` and `N > 0` tenants
yields `N` amounts whose sum is exactly `R`, with `floor(R/N) + (R mod N)`
first and `floor(R/N)` for every other position; `R = 100, N = 3` yields
`[34, 33, 33]`. -/
theorem distributeEvenly_spec (rent n : Nat) (h : 0 < n) :
    (distributeEvenly rent n).length = n
    ∧ (distributeEvenly rent n).sum = rent
    ∧ (distributeEvenly rent n).get? 0 = some (rent / n + rent % n)
    ∧ (∀ i, 0 < i → i < n → (distributeEvenly rent n).get? i = some (rent / n))
    ∧ distributeEvenly 100 3 = [34, 33, 33] := by
  obtain ⟨m, rfl⟩ : ∃ m, n = m + 1 := ⟨n - 1, (Nat.succ_pred_eq_of_pos h).symm⟩
  have hd : distributeEvenly rent (m + 1)
      = (rent / (m + 1) + rent % (m + 1)) :: List.replicate m (rent / (m + 1)) := by
    simp [distributeEvenly]
  refine ⟨?_, ?_, ?_, ?_, by decide⟩
  · rw [hd]; simp
  · rw [hd]
    have hdm := Nat.div_add_mod rent (m + 1)
    simp only [List.sum_cons, List.sum_replicate, smul_eq_mul]
    rw [Nat.succ_mul] at hdm
    generalize m * (rent / (m + 1)) = k at hdm ⊢
    omega
  · rw [hd]; rfl
  · intro i h1 h2
    obtain ⟨j, rfl⟩ : ∃ j, i = j + 1 := ⟨i - 1, (Nat.succ_pred_eq_of_pos h1).symm⟩
    rw [hd]
    exact get?_replicate_of_lt _ m j (by omega)

/-- Witness for C4 at the spec's scenario `R = 100, N = 3`. -/
theorem distributeEvenly_spec_witness :
    0 < 3 ∧ (distributeEvenly 100 3).sum = 100
    ∧ (distributeEvenly 100 3).get? 0 = some 34
    ∧ (distributeEvenly 100 3).get? 2 = some 33 := by
  have h := distributeEvenly_spec 100 3 (by decide)
  exact ⟨by decide, h.2.1, h.2.2.1, h.2.2.2.1 2 (by decide) (by decide)⟩

/-- C8: `deleteProperty` removes exactly the property with the given id,
cascade-removes exactly the tenants of that property, reports success, and
leaves the other properties, the other tenants, the employees and the
config untouched. -/
theorem deleteProperty_cascades (db : Database) (pid : Int) :
    (deleteProperty db pid).2 = ⟨true, none⟩
    ∧ (∀ p : Property,
        p ∈ (deleteProperty db pid).1.properties ↔ p ∈ db.properties ∧ p.id ≠ pid)
    ∧ (∀ t : Tenant,
        t ∈ (deleteProperty db pid).1.tenants ↔ t ∈ db.tenants ∧ t.property_id ≠ pid)
    ∧ (deleteProperty db pid).1.employees = db.employees
    ∧ (deleteProperty db pid).1.config = db.config := by
  refine ⟨rfl, ?_, ?_, rfl, rfl⟩
  · intro p
    simp [deleteProperty, List.mem_filter, bne_iff_ne]
  · intro t
    simp [deleteProperty, List.mem_filter, bne_iff_ne]

/-- Witness for C8 on a concrete two-property store. -/
theorem deleteProperty_cascades_witness :
    (deleteProperty db8 1).2 = ⟨true, none⟩
    ∧ (tB ∈ (deleteProperty db8 1).1.tenants ↔ tB ∈ db8.tenants ∧ tB.property_id ≠ 1) :=
  ⟨(deleteProperty_cascades db8 1).1, (deleteProperty_cascades db8 1).2.2.1 tB⟩

/-- C9: the Dashboard emits exactly one aggregate `danger` alert, stating
the count of active tenants with `rent_contribution = 0`, when at least one
such tenant exists, and none otherwise; contract-expiry alerts are all
`warning`, so they never contribute. -/
theorem dashboard_single_zero_rent_alert (parse : String → Option Int)
    (now : Int) (nowIso : String) (db : Database) :
    (dashboardAlerts parse now nowIso db).filter (fun a => a.type == "danger")
      = if 0 < (zeroRentTenants db).length then
          [⟨"danger", s!"⚠️ {(zeroRentTenants db).length} inquilino(s) sin renta configurada",
            some "high", some nowIso⟩]
        else [] := by
  unfold dashboardAlerts
  dsimp only []
  rw [List.filter_append]
  have h1 : ((activeProps parse now db).filterMap (contractAlert parse now nowIso)).filter
      (fun a => a.type == "danger") = [] := by
    rw [List.filter_eq_nil_iff]
    intro a ha
    obtain ⟨p, _, hp⟩ := List.mem_filterMap.mp ha
    have := contractAlert_isWarning hp
    simp [this]
  rw [h1, List.nil_append]
  split
  · rfl
  · rfl

/-- C3: `validateDataIntegrity` is valid iff its error list is empty; it
emits one `FK_ERROR` per tenant whose `property_id` resolves to no property
and one `CAPACITY_ERROR` per property whose active-tenant count strictly
exceeds its capacity (message carrying the count/capacity pair), with both
rule classes evaluated over the whole set. -/
theorem validateDataIntegrity_spec (ps : List Property) (ts : List Tenant) :
    ((validateDataIntegrity ps ts).valid = true ↔ (validateDataIntegrity ps ts).errors = [])
    ∧ ((validateDataIntegrity ps ts).errors.filter (fun e => e.type == "FK_ERROR")).length
        = (ts.filter (fun t => !(ps.any (fun p => p.id == t.property_id)))).length
    ∧ ((validateDataIntegrity ps ts).errors.filter (fun e => e.type == "CAPACITY_ERROR")).length
        = (ps.filter (fun p => decide ((p.capacity : Int) < (activeTenantCount ts p : Int)))).length
    ∧ (∀ t ∈ ts, ps.any (fun p => p.id == t.property_id) = false →
        (⟨"FK_ERROR",
          s!"Inquilino \"{t.name}\" asignado a propiedad inexistente (ID: {t.property_id})"⟩ : IntegrityError)
          ∈ (validateDataIntegrity ps ts).errors)
    ∧ (∀ p ∈ ps, (p.capacity : Int) < (activeTenantCount ts p : Int) →
        (⟨"CAPACITY_ERROR",
          s!"Propiedad \"{p.name}\" excede capacidad ({activeTenantCount ts p}/{p.capacity})"⟩ : IntegrityError)
          ∈ (validateDataIntegrity ps ts).errors) := by
  have herr : (validateDataIntegrity ps ts).errors
      = ts.filterMap (fkCheck ps) ++ ps.filterMap (capCheck ts) := rfl
  have hval : (validateDataIntegrity ps ts).valid
      = ((validateDataIntegrity ps ts).errors.length == 0) := rfl
  refine ⟨?_, ?_, ?_, ?_, ?_⟩
  · rw [hval]
    exact beq_iff_eq.trans List.length_eq_zero
  · rw [herr, List.filter_append]
    have hA : (ts.filterMap (fkCheck ps)).filter (fun e => e.type == "FK_ERROR")
        = ts.filterMap (fkCheck ps) := by
      rw [List.filter_eq_self]
      intro e he
      obtain ⟨t, _, hf⟩ := List.mem_filterMap.mp he
      simp [fkCheck_type hf]
    have hB : (ps.filterMap (capCheck ts)).filter (fun e => e.type == "FK_ERROR")
        = [] := by
      rw [List.filter_eq_nil_iff]
      intro e he
      obtain ⟨p, _, hf⟩ := List.mem_filterMap.mp he
      simp [capCheck_type hf]
    rw [hA, hB, List.append_nil, length_filterMap_eq]
    apply congrArg
    apply List.filter_congr
    intro t _
    unfold fkCheck
    by_cases h : ps.any (fun p => p.id == t.property_id) <;> simp [h]
  · rw [herr, List.filter_append]
    have hA : (ts.filterMap (fkCheck ps)).filter (fun e => e.type == "CAPACITY_ERROR")
        = [] := by
      rw [List.filter_eq_nil_iff]
      intro e he
      obtain ⟨t, _, hf⟩ := List.mem_filterMap.mp he
      simp [fkCheck_type hf]
    have hB : (ps.filterMap (capCheck ts)).filter (fun e => e.type == "CAPACITY_ERROR")
        = ps.filterMap (capCheck ts) := by
      rw [List.filter_eq_self]
      intro e he
      obtain ⟨p, _, hf⟩ := List.mem_filterMap.mp he
      simp [capCheck_type hf]
    rw [hA, hB, List.nil_append, length_filterMap_eq]
    apply congrArg
    apply List.filter_congr
    intro p _
    unfold capCheck
    dsimp only []
    by_cases h : (p.capacity : Int) < (activeTenantCount ts p : Int) <;> simp [h]
  · intro t ht h
    rw [herr]
    apply List.mem_append_left
    exact List.mem_filterMap.mpr ⟨t, ht, by simp [fkCheck, h]⟩
  · intro p hp h
    rw [herr]
    apply List.mem_append_right
    exact List.mem_filterMap.mpr ⟨p, hp, by simp [capCheck, h]⟩

/-- Witness for C3: one FK violation and one capacity violation (\"2/1\")
on a concrete set. -/
theorem validateDataIntegrity_spec_witness :
    (tA9 ∈ tsC3 ∧ psC3.any (fun p => p.id == tA9.property_id) = false
      ∧ (⟨"FK_ERROR", "Inquilino \"V\" asignado a propiedad inexistente (ID: 9)"⟩ : IntegrityError)
          ∈ (validateDataIntegrity psC3 tsC3).errors)
    ∧ (pA ∈ psC3 ∧ (pA.capacity : Int) < (activeTenantCount tsC3 pA : Int)
      ∧ (⟨"CAPACITY_ERROR", "Propiedad \"A\" excede capacidad (2/1)"⟩ : IntegrityError)
          ∈ (validateDataIntegrity psC3 tsC3).errors) := by
  refine ⟨⟨by decide, by decide, ?_⟩, ⟨by decide, by decide, ?_⟩⟩
  · exact (validateDataIntegrity_spec psC3 tsC3).2.2.2.1 tA9 (by decide) (by decide)
  · exact (validateDataIntegrity_spec psC3 tsC3).2.2.2.2 pA (by decide) (by decide)

theorem employeeIdCount_append (l1 l2 : List Employee) (i : String) :
    employeeIdCount (l1 ++ l2) i = employeeIdCount l1 i + employeeIdCount l2 i := by
  simp [employeeIdCount, List.filter_append]

theorem employeeIdCount_eq_zero_iff {l : List Employee} {i : String} :
    employeeIdCount l i = 0 ↔ ∀ e ∈ l, e.id ≠ i := by
  simp [employeeIdCount, List.length_eq_zero, List.filter_eq_nil_iff]

theorem employeeIdCount_pos {l : List Employee} {i : String} {e : Employee}
    (he : e ∈ l) (hid : e.id = i) : 1 ≤ employeeIdCount l i := by
  have hm : e ∈ l.filter (fun x => x.id == i) := List.mem_filter.mpr ⟨he, by simp [hid]⟩
  have hp := List.length_pos.mpr (List.ne_nil_of_mem hm)
  simpa [employeeIdCount] using hp

theorem pairwise_id_filter_length :
    ∀ {l : List Employee}, l.Pairwise (fun a b => a.id ≠ b.id) →
      ∀ {a : Employee}, a ∈ l → (l.filter (fun e => e.id == a.id)).length = 1 := by
  intro l
  induction l with
  | nil => intro _ a ha; exact absurd ha (by simp)
  | cons b t ih =>
    intro hp a ha
    rw [List.pairwise_cons] at hp
    rcases List.mem_cons.mp ha with h1 | h1
    · subst h1
      have ht : t.filter (fun e => e.id == a.id) = [] := by
        rw [List.filter_eq_nil_iff]
        intro x hx
        have := hp.1 x hx
        simp [this.symm]
      simp [List.filter_cons, ht]
    · have hba : (b.id == a.id) = false := by
        have := hp.1 a h1
        simp [this]
      simp only [List.filter_cons, hba, Bool.false_eq_true, if_false]
      exact ih hp.2 h1

/-- C5 counterexample: merging a candidate list that itself carries a
duplicate employee id twice into the empty store leaves TWO copies of the
id `"a"`, not one — the dedup check only looks at the previous store, not
within the batch. -/
theorem addEmployees_duplicate_batch_counterexample :
    ¬ employeeIdCount (addEmployees (addEmployees dbEmpty dupEmps) dupEmps).employees "a" = 1 := by
  decide

/-- C5 amended: an employee whose id already exists in the store is
silently skipped (the count of that id is unchanged); merging the same
candidate list twice equals merging it once; and when the candidate list
has pairwise-distinct ids and the store holds at most one employee per id,
merging twice leaves exactly one copy of each candidate id. -/
theorem addEmployees_merge_spec (db : Database) (emps : List Employee) :
    (∀ i : String, (∃ e ∈ db.employees, e.id = i) →
        employeeIdCount (addEmployees db emps).employees i
          = employeeIdCount db.employees i)
    ∧ addEmployees (addEmployees db emps) emps = addEmployees db emps
    ∧ (emps.Pairwise (fun a b => a.id ≠ b.id) →
        (∀ i : String, employeeIdCount db.employees i ≤ 1) →
        ∀ emp ∈ emps,
          employeeIdCount (addEmployees (addEmployees db emps) emps).employees emp.id
            = 1) := by
  have hkeep : (addEmployees db emps).employees
      = db.employees ++
        emps.filter (fun emp => !(db.employees.any (fun e => e.id == emp.id))) := rfl
  have hidem : addEmployees (addEmployees db emps) emps = addEmployees db emps := by
    have hall : ∀ emp ∈ emps,
        (addEmployees db emps).employees.any (fun e => e.id == emp.id) = true := by
      intro emp hm
      by_cases hc : db.employees.any (fun e => e.id == emp.id)
      · rcases List.any_eq_true.mp hc with ⟨e, he, hpe⟩
        exact List.any_eq_true.mpr ⟨e, by rw [hkeep]; exact List.mem_append_left _ he, hpe⟩
      · have hkept : emp ∈ (addEmployees db emps).employees := by
          rw [hkeep]
          refine List.mem_append_right _ (List.mem_filter.mpr ⟨hm, ?_⟩)
          simp [Bool.eq_false_iff.mpr hc]
        exact List.any_eq_true.mpr ⟨emp, hkept, by simp⟩
    have hnil : emps.filter
        (fun emp => !((addEmployees db emps).employees.any (fun e => e.id == emp.id)))
        = [] := by
      rw [List.filter_eq_nil_iff]
      intro emp hm
      simp [hall emp hm]
    have hstep : addEmployees (addEmployees db emps) emps
        = { addEmployees db emps with
            employees := (addEmployees db emps).employees ++
              emps.filter (fun emp =>
                !((addEmployees db emps).employees.any (fun e => e.id == emp.id))) } := rfl
    rw [hstep, hnil, List.append_nil]
  refine ⟨?_, hidem, ?_⟩
  · intro i ⟨e, he, hid⟩
    rw [hkeep, employeeIdCount_append]
    have h0 : employeeIdCount
        (emps.filter (fun emp => !(db.employees.any (fun e2 => e2.id == emp.id)))) i
        = 0 := by
      rw [employeeIdCount_eq_zero_iff]
      intro x hx hxi
      obtain ⟨_, hxkeep⟩ := List.mem_filter.mp hx
      have hany : db.employees.any (fun e2 => e2.id == x.id) = true :=
        List.any_eq_true.mpr ⟨e, he, by simp [hid, hxi]⟩
      simp [hany] at hxkeep
    omega
  · intro hpw hle emp hm
    rw [hidem, hkeep, employeeIdCount_append]
    by_cases hc : db.employees.any (fun e => e.id == emp.id)
    · rcases List.any_eq_true.mp hc with ⟨e, he, hpe⟩
      have he_id : e.id = emp.id := by simpa using hpe
      have h0 : employeeIdCount
          (emps.filter (fun x => !(db.employees.any (fun e2 => e2.id == x.id)))) emp.id
          = 0 := by
        rw [employeeIdCount_eq_zero_iff]
        intro x hx hxi
        obtain ⟨_, hxkeep⟩ := List.mem_filter.mp hx
        have hany : db.employees.any (fun e2 => e2.id == x.id) = true :=
          List.any_eq_true.mpr ⟨e, he, by simp [he_id, hxi]⟩
        simp [hany] at hxkeep
      have h1 := employeeIdCount_pos he he_id
      have h2 := hle emp.id
      omega
    · have h0 : employeeIdCount db.employees emp.id = 0 := by
        rw [employeeIdCount_eq_zero_iff]
        intro x hx hxi
        exact hc (List.any_eq_true.mpr ⟨x, hx, by simp [hxi]⟩)
      have hkeq : employeeIdCount
          (emps.filter (fun x => !(db.employees.any (fun e2 => e2.id == x.id)))) emp.id
          = 1 := by
        unfold employeeIdCount
        rw [List.filter_filter]
        have hcongr : ∀ x ∈ emps,
            ((x.id == emp.id) && !(db.employees.any (fun e2 => e2.id == x.id)))
              = (x.id == emp.id) := by
          intro x _
          by_cases hxi : x.id = emp.id
          · have hfa : db.employees.any (fun e2 => e2.id == emp.id) = false :=
              Bool.eq_false_iff.mpr hc
            simp [hxi, hfa]
          · simp [hxi]
        rw [List.filter_congr hcongr]
        exact pairwise_id_filter_length hpw hm
      omega

/-- Witness for C5 amended on a one-employee store and a fresh candidate. -/
theorem addEmployees_merge_spec_witness :
    empA ∈ dbOneEmp.employees ∧ empA.id = "a"
    ∧ employeeIdCount (addEmployees dbOneEmp [empB]).employees "a"
        = employeeIdCount dbOneEmp.employees "a"
    ∧ addEmployees (addEmployees dbOneEmp [empB]) [empB] = addEmployees dbOneEmp [empB]
    ∧ employeeIdCount (addEmployees (addEmployees dbOneEmp [empB]) [empB]).employees "b"
        = 1 := by
  have h := addEmployees_merge_spec dbOneEmp [empB]
  have hle : ∀ i : String, employeeIdCount dbOneEmp.employees i ≤ 1 := by
    intro i
    have hl := List.length_filter_le (fun e => e.id == i) dbOneEmp.employees
    simpa [employeeIdCount] using hl
  refine ⟨by decide, rfl, h.1 "a" ⟨empA, by decide, rfl⟩, h.2.1, ?_⟩
  exact h.2.2 (by simp) hle empB (by simp)

/-- C10: `addTenant` fails and leaves the store untouched when the target
property does not exist or when an active tenant already carries the same
`employee_id`; on success the new tenant is appended and no previously
stored tenant is active with that `employee_id`. -/
theorem addTenant_spec (isDatetime : String → Bool) (db : Database) (now : Int)
    (t : Tenant) :
    (db.properties.any (fun p => p.id == t.property_id) = false →
        addTenant isDatetime db now t = (db, ⟨false, some "Propiedad no existe"⟩))
    ∧ (db.tenants.any (fun u => u.employee_id == t.employee_id && u.status == "active") = true →
        (addTenant isDatetime db now t).1 = db
        ∧ (addTenant isDatetime db now t).2.success = false)
    ∧ ((addTenant isDatetime db now t).2.success = true →
        (addTenant isDatetime db now t).1.tenants = db.tenants ++ [{ t with id := now }]
        ∧ ∀ u ∈ db.tenants, ¬(u.employee_id = t.employee_id ∧ u.status = "active")) := by
  refine ⟨?_, ?_, ?_⟩
  · intro h
    simp [addTenant, h]
  · intro h
    by_cases h1 : db.properties.any (fun p => p.id == t.property_id)
    · constructor <;> simp [addTenant, h1, h]
    · constructor <;> simp [addTenant, Bool.eq_false_iff.mpr h1]
  · intro h
    by_cases h1 : db.properties.any (fun p => p.id == t.property_id)
    · by_cases h2 : db.tenants.any
          (fun u => u.employee_id == t.employee_id && u.status == "active")
      · exact absurd h (by simp [addTenant, h1, h2])
      · by_cases h3 : validateTenantB isDatetime { t with id := now }
        · constructor
          · simp [addTenant, h1, Bool.eq_false_iff.mpr h2, h3]
          · intro u hu hcontra
            have hfa := List.any_eq_false.mp (Bool.eq_false_iff.mpr h2) u hu
            simp [hcontra.1, hcontra.2] at hfa
        · exact absurd h (by simp [addTenant, h1, Bool.eq_false_iff.mpr h2,
            Bool.eq_false_iff.mpr h3])
    · exact absurd h (by simp [addTenant, Bool.eq_false_iff.mpr h1])

/-- Witness for C10: missing property rejected on the empty store; a valid
insert on a one-property store appends the tenant. -/
theorem addTenant_spec_witness :
    dbEmpty.properties.any (fun p => p.id == t10.property_id) = false
    ∧ addTenant dtAlways dbEmpty 5 t10 = (dbEmpty, ⟨false, some "Propiedad no existe"⟩)
    ∧ (addTenant dtAlways db10 7 t10).2.success = true
    ∧ (addTenant dtAlways db10 7 t10).1.tenants = db10.tenants ++ [{ t10 with id := 7 }] := by
  refine ⟨by decide, (addTenant_spec dtAlways dbEmpty 5 t10).1 (by decide), by decide, ?_⟩
  exact ((addTenant_spec dtAlways db10 7 t10).2.2 (by decide)).1

/-- C7: classification priority of `processFile` — employee markers first
(employee pipeline, result typed `employees`), otherwise property/tenant
markers (rent pipeline, result typed `rent_management`), otherwise a failed
result with no candidate data and the explanatory summary. -/
theorem processFile_classification (wb : Workbook) (now : Int) (today : String) :
    (wb.sheetNames.any isEmpSheet = true →
        processFile wb now today = processEmployeeImport wb
        ∧ (processFile wb now today).type = some ImportType.employees)
    ∧ (wb.sheetNames.any isEmpSheet = false →
        (wb.sheetNames.any isPropSheet || wb.sheetNames.any isTenantSheet) = true →
        processFile wb now today = processRentImport wb now today
        ∧ (processFile wb now today).type = some ImportType.rent_management)
    ∧ (wb.sheetNames.any isEmpSheet = false →
        wb.sheetNames.any isPropSheet = false →
        wb.sheetNames.any isTenantSheet = false →
        processFile wb now today
          = ⟨false, none, none, [], "No se detectó formato válido de importación"⟩) := by
  refine ⟨?_, ?_, ?_⟩
  · intro h
    have hpf : processFile wb now today = processEmployeeImport wb := by
      simp [processFile, h]
    refine ⟨hpf, ?_⟩
    rw [hpf]
    have hsome : (wb.sheetNames.find? isEmpSheet).isSome = true :=
      List.find?_isSome.mpr (List.any_eq_true.mp h)
    obtain ⟨s, hs⟩ := Option.isSome_iff_exists.mp hsome
    simp [processEmployeeImport, hs]
  · intro h1 h2
    have hpf : processFile wb now today = processRentImport wb now today := by
      simp [processFile, h1, h2]
    exact ⟨hpf, by rw [hpf]; rfl⟩
  · intro h1 h2 h3
    simp [processFile, h1, h2, h3]

/-- Witness for C7 on three one-sheet workbooks, one per branch. -/
theorem processFile_classification_witness :
    wbEmp.sheetNames.any isEmpSheet = true
    ∧ (processFile wbEmp 0 "d").type = some ImportType.employees
    ∧ wbRent.sheetNames.any isEmpSheet = false
    ∧ (wbRent.sheetNames.any isPropSheet || wbRent.sheetNames.any isTenantSheet) = true
    ∧ (processFile wbRent 0 "d").type = some ImportType.rent_management
    ∧ processFile wbNone 0 "d"
        = ⟨false, none, none, [], "No se detectó formato válido de importación"⟩ :=
  ⟨rfl, ((processFile_classification wbEmp 0 "d").1 rfl).2, rfl, rfl,
    ((processFile_classification wbRent 0 "d").2.1 rfl rfl).2,
    (processFile_classification wbNone 0 "d").2.2 rfl rfl rfl⟩

/-- C6 counterexample: a 家賃 cell holding `"-5"` is coerced to the
negative amount `-5` with no row error, so the coercion is NOT to a
non-negative number. -/
theorem import_money_negative_counterexample :
    (processFile (mkRentWb [negRentRow] []) 0 "2026-10-11").errors = []
    ∧ ((processFile (mkRentWb [negRentRow] []) 0 "2026-10-11").data.map
        (fun d => d.properties.map Property.rent_cost)) = some [-5]
    ∧ ¬ (0 ≤ (-5 : Int)) := by
  decide

/-- C6 amended: monetary cells of imported property and tenant rows are
coerced by stringification and integer prefix parsing (`parseInt`); a
missing or non-numeric cell yields exactly `0` and never a row error (row
errors only concern schema shape or the name fields) — but a negative
numeral passes through as a negative amount. -/
theorem import_money_coercion_spec :
    (∀ (now : Int) (i : Nat) (r : Row) (p : Property),
        processPropRow now i r = .ok p →
          p.rent_cost = coerceMoney (getCell r "家賃")
          ∧ p.rent_price_uns = coerceMoney (getCell r "USN家賃")
          ∧ p.parking_cost = coerceMoney (getCell r "駐車場代"))
    ∧ (∀ (props : List Property) (now : Int) (today : String) (i : Nat)
          (r : Row) (t : Tenant),
        processTenantRow props now today i r = .ok t →
          t.rent_contribution = coerceMoney (getCell r "家賃")
          ∧ t.parking_fee = coerceMoney (getCell r "駐車場"))
    ∧ (∀ (now : Int) (i : Nat) (r : Row) (e : RowError),
        processPropRow now i r = .error e →
          e.field = "propiedad" ∨ e.field = "nombre")
    ∧ coerceMoney none = 0
    ∧ (∀ s : String, jsParseInt s = none → coerceMoney (some (Cell.str s)) = 0) := by
  refine ⟨?_, ?_, ?_, rfl, ?_⟩
  · intro now i r p h
    unfold processPropRow at h
    split at h
    · exact absurd h (by simp)
    · dsimp only [] at h
      split at h
      · exact absurd h (by simp)
      · injection h with h2
        rw [← h2]
        exact ⟨rfl, rfl, rfl⟩
  · intro props now today i r t h
    unfold processTenantRow at h
    split at h
    · exact absurd h (by simp)
    · dsimp only [] at h
      split at h
      · exact absurd h (by simp)
      · split at h
        · exact absurd h (by simp)
        · injection h with h2
          rw [← h2]
          exact ⟨rfl, rfl⟩
  · intro now i r e h
    unfold processPropRow at h
    split at h
    · injection h with h2
      rw [← h2]
      exact Or.inl rfl
    · dsimp only [] at h
      split at h
      · injection h with h2
        rw [← h2]
        exact Or.inr rfl
      · exact absurd h (by simp)
  · intro s h
    by_cases htr : cellTruthy (some (Cell.str s)) = true
    · simp [coerceMoney, jsOrCell, htr, jsString, h]
    · simp only [coerceMoney, jsOrCell, Bool.eq_false_iff.mpr htr,
        Bool.false_eq_true, if_false]
      rfl

/-- Witness for C6 amended: a non-numeric 家賃 cell coerces to `0` on the
produced candidate. -/
theorem import_money_coercion_spec_witness :
    processPropRow 0 0 badRentRow = Except.ok badRentProp
    ∧ badRentProp.rent_cost = coerceMoney (getCell badRentRow "家賃")
    ∧ jsParseInt "abc" = none
    ∧ coerceMoney (some (Cell.str "abc")) = 0 := by
  refine ⟨rfl,
    (import_money_coercion_spec.1 0 0 badRentRow badRentProp rfl).1, rfl, ?_⟩
  exact import_money_coercion_spec.2.2.2.2 "abc" rfl

theorem mem_enum_snd {α : Type} {x : Nat × α} {l : List α} (h : x ∈ l.enum) :
    x.2 ∈ l :=
  mem_enumFrom_snd h

theorem processFile_mkRentWb (a b : List Row) (now : Int) (today : String) :
    processFile (mkRentWb a b) now today = rentImportOn a b now today := by
  have hA : (mkRentWb a b).sheetNames.any isEmpSheet = false := rfl
  have hB : (mkRentWb a b).sheetNames.any isPropSheet = true := rfl
  have h1 : processFile (mkRentWb a b) now today
      = processRentImport (mkRentWb a b) now today := by
    simp [processFile, hA, hB]
  exact h1.trans rfl

theorem processTenantRow_not_found (props : List Property) (now : Int)
    (today : String) (i : Nat) (r : Row)
    (hval : validTenantRow r = true)
    (hapt : (aptOf r == "") = false)
    (hkana : (kanaOf r == "") = false)
    (hnm : ∀ p ∈ props, (p.name == aptOf r) = false) :
    processTenantRow props now today i r
      = .error ⟨i + 1, "apartamento", s!"Propiedad \"{aptOf r}\" no encontrada"⟩ := by
  have hfind : props.find? (fun p => p.name == aptOf r) = none :=
    List.find?_eq_none.mpr (fun p hp => by simp [hnm p hp])
  simp [processTenantRow, hval, hapt, hkana, hfind]

/-- C2: a tenant row (schema-valid, with non-empty apartment and kana
names) whose apartment name equals no candidate property name of the same
run yields exactly one per-row error naming the apartment
(`Propiedad "..." no encontrada`), contributes no tenant candidate, and
forces `success = false`; the run is matched only against the candidates
(`candidateProps`), the canonical store not being an input at all. -/
theorem import_tenant_not_found (propRows : List Row) (r : Row) (now : Int)
    (today : String)
    (hval : validTenantRow r = true)
    (hapt : (aptOf r == "") = false)
    (hkana : (kanaOf r == "") = false)
    (hnm : ∀ p ∈ candidateProps now propRows, (p.name == aptOf r) = false) :
    (processFile (mkRentWb propRows [r]) now today).success = false
    ∧ ((processFile (mkRentWb propRows [r]) now today).data.map ImportData.tenants)
        = some []
    ∧ (processFile (mkRentWb propRows [r]) now today).errors.filter
        (fun e => e.field == "apartamento")
      = [⟨1, "apartamento", s!"Propiedad \"{aptOf r}\" no encontrada"⟩] := by
  rw [processFile_mkRentWb propRows [r] now today]
  have hrow := processTenantRow_not_found (candidateProps now propRows) now today 0 r
    hval hapt hkana hnm
  unfold candidateProps at hrow
  have hcoll : collectRows
      (processTenantRow (collectRows (processPropRow now) 0 propRows).2 now today) 0 [r]
      = ([⟨1, "apartamento", s!"Propiedad \"{aptOf r}\" no encontrada"⟩], []) := by
    simp [collectRows, hrow]
  unfold rentImportOn
  dsimp only []
  rw [hcoll]
  refine ⟨?_, rfl, ?_⟩
  · have hlen : (((collectRows (processPropRow now) 0 propRows).1 ++
        [(⟨1, "apartamento", s!"Propiedad \"{aptOf r}\" no encontrada"⟩ : RowError)]).length == 0)
        = false := by
      simp [List.length_append]
    rw [hlen, Bool.false_and]
  · rw [List.filter_append, List.filter_append]
    have hprop : ((collectRows (processPropRow now) 0 propRows).1).filter
        (fun e => e.field == "apartamento") = [] := by
      rw [List.filter_eq_nil_iff]
      intro e he
      rcases collectRows_prop_error_fields he with h1 | h1 <;> simp [h1]
    have hinteg : ((validateDataIntegrity (collectRows (processPropRow now) 0 propRows).2
          []).errors.enum.map (fun ie => (⟨ie.1, ie.2.type, ie.2.message⟩ : RowError))).filter
        (fun e => e.field == "apartamento") = [] := by
      rw [List.filter_eq_nil_iff]
      intro e he
      obtain ⟨ie, hie, hfe⟩ := List.mem_map.mp he
      have hmem := mem_enum_snd hie
      rcases integrity_error_types hmem with h1 | h1 <;>
        · rw [← hfe]
          simp [h1]
    rw [hprop, hinteg, List.nil_append, List.append_nil]
    rfl

/-- Witness for C2 at the spec's "Unknown apartment" scenario, with no
property rows at all. -/
theorem import_tenant_not_found_witness :
    validTenantRow unknownAptRow = true
    ∧ (aptOf unknownAptRow == "") = false
    ∧ (processFile (mkRentWb [] [unknownAptRow]) 0 "2026-10-11").success = false
    ∧ ((processFile (mkRentWb [] [unknownAptRow]) 0 "2026-10-11").data.map
        ImportData.tenants) = some []
    ∧ (processFile (mkRentWb [] [unknownAptRow]) 0 "2026-10-11").errors.filter
        (fun e => e.field == "apartamento")
      = [⟨1, "apartamento", "Propiedad \"Unknown\" no encontrada"⟩] := by
  have h := import_tenant_not_found [] unknownAptRow 0 "2026-10-11" rfl rfl rfl
    (fun p hp => absurd hp (List.not_mem_nil p))
  exact ⟨rfl, rfl, h.1, h.2.1, h.2.2⟩

end UNS
